import Mathlib

/-!
Verification of the misinformation-triage pipeline (Project Aegis).

The development shallow-embeds the decision logic of the repository:
the coordinator polling loop of app.py (fusion decision, final decision),
the per-claim routing of backend/agents/coordinator_agent.py, the mock
investigator, the herald alert composer, the source profiler heuristics,
the cache manager keying, the training-pipeline keyword counter and the
HTTP endpoint guards.  Scores that Python holds as floats are modelled as
exact rationals; the decimal literals of the source (0.2, 0.8, ...) are
exact rationals here.  External boundaries (the database, the JSON
parser, the hashing library, the web research call) appear as explicit
function parameters of the embedded operations.
-/

namespace Aegis

/-- Lowercasing of a string, the model of Python `str.lower` (the texts
involved are ASCII), computed characterwise over the character list. -/
def lower (s : String) : String :=
  String.mk (s.data.map Char.toLower)

/-- Whitespace test of Python `str.strip`. -/
def isPyWhitespace (c : Char) : Bool :=
  c = ' ' || c = '\t' || c = '\n' || c = '\r' || c = '\x0b' || c = '\x0c'

/-- Stripping of leading and trailing whitespace, the model of Python
`str.strip`, computed over the character list. -/
def strip (s : String) : String :=
  String.mk (((s.data.dropWhile isPyWhitespace).reverse.dropWhile isPyWhitespace).reverse)

/-- Substring test on character lists: `needle` occurs somewhere inside
`hay`.  This is the model of the Python `in` operator on strings. -/
def listContainsSub : List Char → List Char → Bool
  | [], needle => needle.isEmpty
  | c :: rest, needle => needle.isPrefixOf (c :: rest) || listContainsSub rest needle

/-- Substring test on strings, the model of Python `needle in hay`. -/
def strContains (hay needle : String) : Bool :=
  listContainsSub hay.data needle.data

/-- Number of non-overlapping occurrences of `needle` in `hay`, scanning
left to right and skipping the matched block after each hit.  This is how
`len(re.compile(re.escape(kw)).findall(text))` counts matches of a literal
pattern in Python. -/
def countOccAux (needle : List Char) : List Char → Nat → Nat
  | [], _ => 0
  | c :: rest, skip =>
    if skip > 0 then countOccAux needle rest (skip - 1)
    else if needle ≠ [] ∧ needle.isPrefixOf (c :: rest) then
      1 + countOccAux needle rest (needle.length - 1)
    else
      countOccAux needle rest 0

/-- Number of non-overlapping occurrences of `needle` in `hay`, scanning
left to right. -/
def countOcc (needle hay : List Char) : Nat :=
  countOccAux needle hay 0

/-- Source metadata as read from `source_metadata_json`.  Every field may
be absent, in which case the source (`metadata.get(key, default)`) falls
back to 0 / 0 / 0 / false. -/
structure SourceMetadata where
  account_age_days : Option Int
  followers : Option Int
  following : Option Int
  is_verified : Option Bool
deriving DecidableEq

/-- Embedding of `SourceProfilerAgent.calculate_source_score`
(backend/agents/source_profiler_agent.py): base 0.5, +0.4 verified,
-0.25 for age < 30 days else +0.1 for age > 365 days, follower-ratio
adjustments when following > 0, +0.1 above one million followers, and a
final clamp into [0.0, 1.0]. -/
def calculate_source_score (metadata : SourceMetadata) : ℚ :=
  let account_age_days := metadata.account_age_days.getD 0
  let followers := metadata.followers.getD 0
  let following := metadata.following.getD 0
  let is_verified := metadata.is_verified.getD false
  let score : ℚ := 0.5
  let score := if is_verified then score + 0.4 else score
  let score :=
    if account_age_days < 30 then score - 0.25
    else if account_age_days > 365 then score + 0.1
    else score
  let score :=
    if following > 0 then
      let score := if followers > following * 5 then score + 0.1 else score
      if following > followers * 10 ∧ followers < 1000 then score - 0.2 else score
    else score
  let score := if followers > 1000000 then score + 0.1 else score
  max 0 (min 1 score)

/-- Task payload for the source profiler; the key
`source_metadata_json` may be missing from the payload dictionary. -/
structure ProfilerTaskPayload where
  source_metadata_json : Option String
deriving DecidableEq

/-- Result record of `SourceProfilerAgent.process_task` (the timestamp
field of the source is not modelled). -/
structure ProfilerResult where
  source_metadata : SourceMetadata
  source_credibility_score : ℚ
deriving DecidableEq

/-- Embedding of `SourceProfilerAgent.process_task`: read the payload key
`source_metadata_json` with default `"{}"` (written here with escaped
braces), parse it with the JSON library (an external boundary, passed in
as `parseJson`), fail on a parse error, and otherwise score the metadata. -/
def SourceProfilerAgent.process_task
    (parseJson : String → Except String SourceMetadata)
    (payload : ProfilerTaskPayload) : Except String ProfilerResult :=
  let source_metadata_json := payload.source_metadata_json.getD "\x7b\x7d"
  match parseJson source_metadata_json with
  | .error e => .error ("Invalid JSON in source_metadata_json: " ++ e)
  | .ok source_metadata =>
      .ok { source_metadata := source_metadata,
            source_credibility_score := calculate_source_score source_metadata }

/-- Case file handed to the investigator; the source reads each field
with `case_file.get(key, default)`, so each may be absent. -/
structure CaseFile where
  claim_text : Option String
  text_suspicion_score : Option ℚ
  source_credibility_score : Option ℚ
deriving DecidableEq

/-- Verdict record produced by the investigator. -/
structure InvestigationResult where
  verdict : String
  confidence : ℚ
  reasoning : String
deriving DecidableEq

/-- Embedding of `InvestigatorAgent.analyze_with_mock`
(backend/agents/investigator_agent.py; the standalone
`investigator_agent` of app.py is the same logic): scores default to 0.5,
then three fixed branches. -/
def analyze_with_mock (case_file : CaseFile) : InvestigationResult :=
  let text_suspicion_score := case_file.text_suspicion_score.getD 0.5
  let source_credibility_score := case_file.source_credibility_score.getD 0.5
  if text_suspicion_score > 0.8 ∧ source_credibility_score < 0.3 then
    { verdict := "False", confidence := 0.9,
      reasoning := "High suspicion score and low source credibility indicate misinformation." }
  else if text_suspicion_score < 0.3 ∧ source_credibility_score > 0.7 then
    { verdict := "True", confidence := 0.8,
      reasoning := "Low suspicion score and high source credibility suggest authentic information." }
  else
    { verdict := "Misleading", confidence := 0.6,
      reasoning := "Mixed indicators require further investigation for complete accuracy." }

/-- Investigator report consumed by the herald; the source reads the
fields with defaults "Misleading" / 0.5 / "No reasoning provided". -/
structure InvestigatorReport where
  verdict : Option String
  confidence : Option ℚ
  reasoning : Option String
deriving DecidableEq

/-- Embedding of `herald_agent` (app.py): pick the emoji from the
verdict, compose the templated sentence with the reasoning and the
confidence as a whole-number percentage, and return
`emoji ++ " " ++ message`.  The `:.0f` float formatting of the source is
modelled by rounding the exact rational `confidence * 100` to an
integer; they agree whenever that product is an integer. -/
def herald_agent (investigator_report : InvestigatorReport) : String :=
  let verdict := investigator_report.verdict.getD "Misleading"
  let confidence := investigator_report.confidence.getD 0.5
  let reasoning := investigator_report.reasoning.getD "No reasoning provided"
  let emoji :=
    if verdict = "True" then "🟢"
    else if verdict = "False" then "🔴"
    else "🟡"
  let pct := toString (round (confidence * 100))
  let message :=
    if verdict = "True" then
      "This information has been verified as accurate. " ++ reasoning ++
        " Our confidence level is " ++ pct ++ "%."
    else if verdict = "False" then
      "This information has been confirmed as false. " ++ reasoning ++
        " Our confidence level is " ++ pct ++ "%."
    else
      "This information may be misleading. " ++ reasoning ++
        " Our confidence level is " ++ pct ++ "%."
  emoji ++ " " ++ message

/-- Research dossier produced by `gather_evidence`: a reference-summary
string and a list of web snippets. -/
structure Dossier where
  wikipedia_summary : String
  web_snippets : List String
deriving DecidableEq

/-- Row of the `verified_claims` table, restricted to the fields the
claims are about. -/
structure VerifiedClaim where
  raw_claim_id : Nat
  verification_status : String
  explanation : String
deriving DecidableEq

/-- Row of the `raw_claims` table, restricted to the fields the
coordinator loop reads; the scores may be missing, the source reads them
with `claim.get(key, 0.5)`. -/
structure RawClaim where
  claim_id : Nat
  claim_text : String
  text_suspicion_score : Option ℚ
  source_credibility_score : Option ℚ
deriving DecidableEq

/-- Observable effect of one fusion-phase iteration on one claim: the
status written back, the dossier stored (if any), and the rows inserted
into `verified_claims` (always none in this phase). -/
structure FusionEffect where
  newStatus : String
  storedDossier : Option Dossier
  verifiedInserts : List VerifiedClaim
deriving DecidableEq

/-- Embedding of the fusion-decision phase of `coordinator_loop`
(app.py), per claim in status `pending_fusion_decision`: archive when
`text_suspicion_score < 0.2 and source_credibility_score > 0.8`,
otherwise call `gather_evidence` (an external boundary, passed in),
store the dossier and move to `pending_final_decision`. -/
def fusionStep (gather_evidence : String → Dossier) (claim : RawClaim) : FusionEffect :=
  let text_suspicion_score := claim.text_suspicion_score.getD 0.5
  let source_credibility_score := claim.source_credibility_score.getD 0.5
  if text_suspicion_score < 0.2 ∧ source_credibility_score > 0.8 then
    { newStatus := "archived", storedDossier := none, verifiedInserts := [] }
  else
    { newStatus := "pending_final_decision",
      storedDossier := some (gather_evidence claim.claim_text),
      verifiedInserts := [] }

/-- Embedding of the `is_conclusive` test of the final-decision phase of
`coordinator_loop` (app.py): non-empty reference summary that contains
"not" or "false" after lowercasing, plus at least one web snippet. -/
def is_conclusive (research_dossier : Dossier) : Bool :=
  research_dossier.wikipedia_summary != "" &&
    (strContains (lower research_dossier.wikipedia_summary) "not" ||
      strContains (lower research_dossier.wikipedia_summary) "false") &&
    research_dossier.web_snippets.length > 0

/-- Observable effect of one final-decision iteration on one claim. -/
structure FinalEffect where
  newStatus : String
  verifiedInsert : Option VerifiedClaim
deriving DecidableEq

/-- Embedding of the final-decision phase of `coordinator_loop`
(app.py), per claim in status `pending_final_decision`, applied to the
parsed research dossier of the claim: when conclusive, insert a
`verified_claims` row with status "False" and the fixed explanation and
move to `resolved_by_fusion`; otherwise move to
`escalated_to_investigator`. -/
def finalStep (claim : RawClaim) (research_dossier : Dossier) : FinalEffect :=
  if is_conclusive research_dossier then
    { newStatus := "resolved_by_fusion",
      verifiedInsert := some
        { raw_claim_id := claim.claim_id,
          verification_status := "False",
          explanation := "Wikipedia and web search results strongly contradict the claim" } }
  else
    { newStatus := "escalated_to_investigator", verifiedInsert := none }

/-- Trace of one run of `CoordinatorAgent.process_claim`: which pipeline
stages ran, in order, and the status stamped on the claim data. -/
structure PipelineTrace where
  stagesInvoked : List String
  finalStatus : Option String
deriving DecidableEq

/-- Embedding of the routing decision of `CoordinatorAgent.process_claim`
(backend/agents/coordinator_agent.py): when
`text_suspicion_score > 0.3 or source_credibility_score < 0.7`, run
`gather_evidence`, then `investigate_claim`, then `generate_alert`;
otherwise set status "archived" and run none of them. -/
def process_claim (text_suspicion_score source_credibility_score : ℚ) : PipelineTrace :=
  if text_suspicion_score > 0.3 ∨ source_credibility_score < 0.7 then
    { stagesInvoked := ["gather_evidence", "investigate_claim", "generate_alert"],
      finalStatus := none }
  else
    { stagesInvoked := [], finalStatus := some "archived" }

/-- In-memory cache of the cache manager: the member dictionary
`memory_cache`, modelled as an association list where an insert prepends
and a lookup takes the most recent binding (the observable behaviour of
Python dict assignment and lookup). -/
def Cache (V : Type) : Type := List (String × V)

/-- Empty cache, the `memory_cache = \x7b\x7d` of a fresh CacheManager. -/
def Cache.empty (V : Type) : Cache V := []

/-- Embedding of `CacheManager.generate_cache_key`
(backend/utils/cache_manager.py): lowercase, strip, hash with the hashing
library (an external boundary, passed in as `md5hex`), and prepend the
"claim:" prefix of the default argument. -/
def generate_cache_key (md5hex : String → String) (claim_text : String) : String :=
  "claim:" ++ md5hex (strip (lower claim_text))

/-- Embedding of `CacheManager.get` in the in-memory branch. -/
def Cache.get {V : Type} (cache : Cache V) (key : String) : Option V :=
  List.lookup key cache

/-- Embedding of `CacheManager.set` in the in-memory branch. -/
def Cache.set {V : Type} (cache : Cache V) (key : String) (value : V) : Cache V :=
  (key, value) :: cache

/-- Embedding of `CacheManager.check_similar_claim`. -/
def check_similar_claim {V : Type} (md5hex : String → String)
    (cache : Cache V) (claim_text : String) : Option V :=
  Cache.get cache (generate_cache_key md5hex claim_text)

/-- Embedding of `CacheManager.cache_claim_result`. -/
def cache_claim_result {V : Type} (md5hex : String → String)
    (cache : Cache V) (claim_text : String) (result : V) : Cache V :=
  Cache.set cache (generate_cache_key md5hex claim_text) result

/-- Cache state after caching exactly the given (text, value) pairs, in
order, through `cache_claim_result`, starting from a fresh CacheManager. -/
def cacheOfResults {V : Type} (md5hex : String → String)
    (entries : List (String × V)) : Cache V :=
  entries.foldl (fun cache e => cache_claim_result md5hex cache e.1 e.2) (Cache.empty V)

/-- Response of an HTTP handler: either the list of rows or an object
holding an error string. -/
inductive EndpointResponse (Row : Type) where
  | rows (data : List Row)
  | errorObj (message : String)
deriving DecidableEq

/-- Embedding of the `/updates` handler `get_updates` (app.py): an
uninitialized client short-circuits to an error object; otherwise the
datastore query (an external boundary, its outcome passed in) either
yields the rows or, caught by the try/except, an error object. -/
def get_updates {Row : Type} (supabase_client : Option Unit)
    (queryResult : Except String (List Row)) : EndpointResponse Row :=
  match supabase_client with
  | none => .errorObj "Supabase client not initialized"
  | some _ =>
    match queryResult with
    | .ok data => .rows data
    | .error _ => .errorObj "Failed to fetch updates"

/-- Embedding of the `/agent-status` handler `get_agent_status`
(app.py), same guard structure as `get_updates`. -/
def get_agent_status {Row : Type} (supabase_client : Option Unit)
    (queryResult : Except String (List Row)) : EndpointResponse Row :=
  match supabase_client with
  | none => .errorObj "Supabase client not initialized"
  | some _ =>
    match queryResult with
    | .ok data => .rows data
    | .error _ => .errorObj "Failed to fetch agent status"

/-- Apostrophe character, written by code point to keep it out of the
string literals below. -/
def apostrophe : String := String.singleton (Char.ofNat 39)

/-- Keyword list of `suspicious_keyword_count` (backend/train_model.py),
verbatim and in source order. -/
def suspicious_keywords : List String :=
  ["conspiracy", "hoax", "secret cure", "fake", "exposed",
   "they don" ++ apostrophe ++ "t want you to know",
   "miracle cure", "doctors hate", "cover up", "hidden", "suppressed", "banned",
   "censored", "shocking", "urgent", "alert", "warning", "must read", "breaking",
   "insider", "leak", "proof", "evidence", "undeniable", "truth", "revealed"]

/-- Embedding of `suspicious_keyword_count` (backend/train_model.py):
sum, over the keyword list, of the number of case-insensitive
non-overlapping occurrences of the keyword in the text. -/
def suspicious_keyword_count (text : String) : Nat :=
  (suspicious_keywords.map
    (fun keyword => countOcc (lower keyword).data (lower text).data)).sum

end Aegis
namespace Aegis

/-- Helper: a character list is a prefix of itself followed by anything. -/
theorem isPrefixOf_append_self (l m : List Char) : l.isPrefixOf (l ++ m) = true := by
  induction l with
  | nil => simp [List.isPrefixOf]
  | cons c cs ih => simp [List.isPrefixOf, ih]

/-- Claim C1: in the polling-loop coordinator, the fusion decision moves a
pending_fusion_decision claim to status archived, creating no VerifiedClaim,
exactly when text_suspicion_score < 0.2 and source_credibility_score > 0.8;
every other score combination gathers evidence, stores the research dossier
and moves the claim to pending_final_decision. -/
theorem fusionStep_archives_iff (gather_evidence : String → Dossier) (claim : RawClaim) :
    ((fusionStep gather_evidence claim).newStatus = "archived"
        ↔ claim.text_suspicion_score.getD 0.5 < 0.2
            ∧ claim.source_credibility_score.getD 0.5 > 0.8)
      ∧ (fusionStep gather_evidence claim).verifiedInserts = []
      ∧ (¬ (claim.text_suspicion_score.getD 0.5 < 0.2
              ∧ claim.source_credibility_score.getD 0.5 > 0.8) →
          (fusionStep gather_evidence claim).newStatus = "pending_final_decision"
            ∧ (fusionStep gather_evidence claim).storedDossier
                = some (gather_evidence claim.claim_text)) := by
  unfold fusionStep
  by_cases h : claim.text_suspicion_score.getD 0.5 < 0.2
      ∧ claim.source_credibility_score.getD 0.5 > 0.8
  · simp [h]
  · simp [h]

/-- Claim C2: the direct routing path CoordinatorAgent.process_claim archives
immediately, invoking none of the research, investigation and alert stages,
exactly when text_suspicion_score is at most 0.3 and
source_credibility_score is at least 0.7; every other combination runs
evidence gathering, then investigation, then alert generation. -/
theorem process_claim_routing (text_suspicion_score source_credibility_score : ℚ) :
    (process_claim text_suspicion_score source_credibility_score
        = { stagesInvoked := [], finalStatus := some "archived" }
      ↔ text_suspicion_score ≤ 0.3 ∧ 0.7 ≤ source_credibility_score)
    ∧ (¬ (text_suspicion_score ≤ 0.3 ∧ 0.7 ≤ source_credibility_score) →
        process_claim text_suspicion_score source_credibility_score
          = { stagesInvoked := ["gather_evidence", "investigate_claim", "generate_alert"],
              finalStatus := none }) := by
  unfold process_claim
  by_cases h : text_suspicion_score > 0.3 ∨ source_credibility_score < 0.7
  · have h2 : ¬ (text_suspicion_score ≤ 0.3 ∧ 0.7 ≤ source_credibility_score) := by
      rcases h with h | h
      · exact fun hc => absurd hc.1 (not_le.mpr h)
      · exact fun hc => absurd hc.2 (not_le.mpr h)
    simp [if_pos h, h2]
  · have h2 : text_suspicion_score ≤ 0.3 ∧ 0.7 ≤ source_credibility_score := by
      push_neg at h
      exact ⟨h.1, h.2⟩
    simp [if_neg h, h2]

/-- Claim C3 counterexample: on a conclusive dossier the code writes the
explanation "Wikipedia and web search results strongly contradict the
claim", which is not the string the claim quotes. -/
theorem finalStep_explanation_counterexample :
    is_conclusive { wikipedia_summary := "The claim is not supported.",
                    web_snippets := ["snippet"] } = true
    ∧ (finalStep
          { claim_id := 7, claim_text := "c",
            text_suspicion_score := some 0.9, source_credibility_score := some 0.1 }
          { wikipedia_summary := "The claim is not supported.",
            web_snippets := ["snippet"] }).verifiedInsert
        = some { raw_claim_id := 7, verification_status := "False",
                 explanation := "Wikipedia and web search results strongly contradict the claim" }
    ∧ "Wikipedia and web search results strongly contradict the claim"
        ≠ "reference-source and web-search results strongly contradict the claim" := by
  refine ⟨by decide, ?_, by decide⟩
  rw [finalStep, if_pos (by decide)]

/-- Claim C3 (amended): the final-decision phase writes a VerifiedClaim with
status "False" and explanation "Wikipedia and web search results strongly
contradict the claim" and moves the claim to resolved_by_fusion exactly when
the dossier is conclusive (non-empty reference summary containing "not" or
"false" case-insensitively, at least one web snippet); otherwise the claim
moves to escalated_to_investigator with no VerifiedClaim. -/
theorem finalStep_spec (claim : RawClaim) (research_dossier : Dossier) :
    ((finalStep claim research_dossier).newStatus = "resolved_by_fusion"
        ∧ (finalStep claim research_dossier).verifiedInsert
            = some { raw_claim_id := claim.claim_id, verification_status := "False",
                     explanation := "Wikipedia and web search results strongly contradict the claim" }
      ↔ is_conclusive research_dossier = true)
    ∧ (is_conclusive research_dossier = false →
        (finalStep claim research_dossier).newStatus = "escalated_to_investigator"
          ∧ (finalStep claim research_dossier).verifiedInsert = none)
    ∧ (is_conclusive research_dossier = true ↔
        research_dossier.wikipedia_summary ≠ ""
          ∧ (strContains (lower research_dossier.wikipedia_summary) "not" = true
              ∨ strContains (lower research_dossier.wikipedia_summary) "false" = true)
          ∧ 0 < research_dossier.web_snippets.length) := by
  refine ⟨?_, ?_, ?_⟩
  · unfold finalStep
    by_cases h : is_conclusive research_dossier
    · simp [h]
    · simp [h]
  · intro h
    unfold finalStep
    simp [h]
  · unfold is_conclusive
    simp [Bool.and_eq_true, Bool.or_eq_true, bne_iff_ne, decide_eq_true_eq]
    tauto

/-- Claim C4: the mock investigator returns verdict False with confidence 0.9
when text_suspicion_score > 0.8 and source_credibility_score < 0.3, verdict
True with confidence 0.8 when text_suspicion_score < 0.3 and
source_credibility_score > 0.7, and verdict Misleading with confidence 0.6
in every other case, each with its fixed one-sentence reasoning. -/
theorem analyze_with_mock_branches (case_file : CaseFile) :
    (case_file.text_suspicion_score.getD 0.5 > 0.8
        ∧ case_file.source_credibility_score.getD 0.5 < 0.3 →
      analyze_with_mock case_file
        = { verdict := "False", confidence := 0.9,
            reasoning := "High suspicion score and low source credibility indicate misinformation." })
    ∧ (case_file.text_suspicion_score.getD 0.5 < 0.3
          ∧ case_file.source_credibility_score.getD 0.5 > 0.7 →
        analyze_with_mock case_file
          = { verdict := "True", confidence := 0.8,
              reasoning := "Low suspicion score and high source credibility suggest authentic information." })
    ∧ (¬ (case_file.text_suspicion_score.getD 0.5 > 0.8
            ∧ case_file.source_credibility_score.getD 0.5 < 0.3) →
        ¬ (case_file.text_suspicion_score.getD 0.5 < 0.3
            ∧ case_file.source_credibility_score.getD 0.5 > 0.7) →
        analyze_with_mock case_file
          = { verdict := "Misleading", confidence := 0.6,
              reasoning := "Mixed indicators require further investigation for complete accuracy." }) := by
  unfold analyze_with_mock
  refine ⟨fun h => ?_, fun h => ?_, fun h1 h2 => ?_⟩
  · rw [if_pos h]
  · have hn : ¬ (case_file.text_suspicion_score.getD 0.5 > 0.8
        ∧ case_file.source_credibility_score.getD 0.5 < 0.3) := by
      intro hc
      have := h.1
      have := hc.1
      linarith
    rw [if_neg hn, if_pos h]
  · rw [if_neg h1, if_neg h2]

/-- Claim C5: on the report with verdict False, confidence 0.95 and
reasoning X, the herald returns the string starting with the red emoji,
containing X and ending with "Our confidence level is 95%."; and every
report whose verdict is neither True nor False gets the yellow emoji. -/
theorem herald_agent_alerts :
    herald_agent { verdict := some "False", confidence := some 0.95, reasoning := some "X" }
        = "🔴 This information has been confirmed as false. X Our confidence level is 95%."
    ∧ ("🔴".data).isPrefixOf
        (herald_agent { verdict := some "False", confidence := some 0.95,
                        reasoning := some "X" }).data = true
    ∧ strContains
        (herald_agent { verdict := some "False", confidence := some 0.95,
                        reasoning := some "X" }) "X" = true
    ∧ ("Our confidence level is 95%.".data).isSuffixOf
        (herald_agent { verdict := some "False", confidence := some 0.95,
                        reasoning := some "X" }).data = true
    ∧ (∀ investigator_report : InvestigatorReport,
        investigator_report.verdict.getD "Misleading" ≠ "True" →
        investigator_report.verdict.getD "Misleading" ≠ "False" →
        ("🟡".data).isPrefixOf (herald_agent investigator_report).data = true) := by
  have hmain : herald_agent ⟨some "False", some 0.95, some "X"⟩
      = "🔴 This information has been confirmed as false. X Our confidence level is 95%." := by
    norm_num [herald_agent]
    rfl
  refine ⟨hmain, ?_, ?_, ?_, ?_⟩
  · rw [hmain]; decide
  · rw [hmain]; decide
  · rw [hmain]; decide
  · intro investigator_report hT hF
    unfold herald_agent
    simp only [hT, hF, if_false, ite_false]
    rw [String.append_assoc, String.data_append]
    exact isPrefixOf_append_self _ _

/-- Claim C6: the source profiler score is always within [0.0, 1.0],
whatever the metadata and however the additive adjustments sum up. -/
theorem calculate_source_score_bounds (metadata : SourceMetadata) :
    0 ≤ calculate_source_score metadata ∧ calculate_source_score metadata ≤ 1 := by
  unfold calculate_source_score
  exact ⟨le_max_left _ _, max_le (by norm_num) (min_le_left _ _)⟩

/-- Helper: a key bound neither in the accumulator nor by any cached entry
stays unbound after folding the entries into the cache. -/
theorem lookup_foldl_cache_eq_none {V : Type} (md5hex : String → String)
    (entries : List (String × V)) (acc : Cache V) (k : String)
    (hacc : List.lookup k acc = none)
    (hk : ∀ e ∈ entries, k ≠ generate_cache_key md5hex e.1) :
    List.lookup k
        (entries.foldl (fun cache e => cache_claim_result md5hex cache e.1 e.2) acc)
      = none := by
  induction entries generalizing acc with
  | nil => simpa using hacc
  | cons e es ih =>
      simp only [List.foldl_cons]
      apply ih
      · have hne : (k == generate_cache_key md5hex e.1) = false :=
          beq_eq_false_iff_ne.mpr (hk e (by simp))
        unfold cache_claim_result Cache.set
        simp [List.lookup, hacc, hne]
      · intro e' he'
        exact hk e' (List.mem_cons_of_mem _ he')

/-- Claim C7: caching a value under a claim text and looking it up under a
text equal up to letter case and surrounding whitespace returns that value,
for any hashing function; and in a cache built by caching any entries
whatsoever, looking up a text that was never cached (its normalized form
differs from that of every cached text) returns an absent result, provided
the hashing function is collision-free on the keys involved. -/
theorem cache_roundtrip (V : Type) (md5hex : String → String) (cache : Cache V)
    (text₁ text₂ : String) (value : V)
    (hnorm : strip (lower text₂) = strip (lower text₁)) :
    check_similar_claim md5hex (cache_claim_result md5hex cache text₁ value) text₂
        = some value
    ∧ (∀ (_ : ∀ a b : String, md5hex a = md5hex b → a = b)
        (entries : List (String × V)) (t : String),
        (∀ e ∈ entries, strip (lower t) ≠ strip (lower e.1)) →
        check_similar_claim md5hex (cacheOfResults md5hex entries) t = none) := by
  constructor
  · unfold check_similar_claim cache_claim_result Cache.get Cache.set generate_cache_key
    rw [hnorm]
    simp [List.lookup]
  · intro hinj entries t hnever
    unfold check_similar_claim Cache.get cacheOfResults
    apply lookup_foldl_cache_eq_none
    · rfl
    · intro e he heq
      unfold generate_cache_key at heq
      have hdata := congrArg String.data heq
      rw [String.data_append, String.data_append] at hdata
      have hhash : md5hex (strip (lower t)) = md5hex (strip (lower e.1)) :=
        String.ext (List.append_cancel_left hdata)
      exact hnever e he (hinj _ _ hhash)

/-- Witness for claim C7 at a concrete cache, text pair and value. -/
theorem cache_roundtrip_witness :
    check_similar_claim id
        (cache_claim_result id (Cache.empty Nat) "  Misinformation Claim " 7)
        "misinformation claim" = some 7
    ∧ (∀ (_ : ∀ a b : String, id a = id b → a = b)
        (entries : List (String × Nat)) (t : String),
        (∀ e ∈ entries, strip (lower t) ≠ strip (lower e.1)) →
        check_similar_claim id (cacheOfResults id entries) t = none) :=
  cache_roundtrip Nat id (Cache.empty Nat) "  Misinformation Claim "
    "misinformation claim" 7 (by decide)

/-- Claim C8 counterexample: the keyword list of suspicious_keyword_count
has 26 entries, not the 25 the claim states. -/
theorem suspicious_keywords_length_counterexample :
    suspicious_keywords.length = 26 ∧ suspicious_keywords.length ≠ 25 := by
  decide

/-- Claim C8 (amended): suspicious_keyword_count matches its fixed 26-term
keyword list case-insensitively and counts every occurrence, so the text
"FAKE fake Fake" yields 3. -/
theorem suspicious_keyword_count_case_insensitive :
    suspicious_keyword_count "FAKE fake Fake" = 3
    ∧ suspicious_keywords.length = 26 := by
  decide

/-- Claim C9: with the datastore client uninitialized, both the /updates
and the /agent-status handlers return an error object, whatever the
datastore query would have produced. -/
theorem endpoints_error_when_client_uninitialized (Row : Type)
    (q₁ q₂ : Except String (List Row)) :
    get_updates none q₁ = EndpointResponse.errorObj "Supabase client not initialized"
    ∧ get_agent_status none q₂
        = EndpointResponse.errorObj "Supabase client not initialized" :=
  ⟨rfl, rfl⟩

/-- Claim C10: a profiler task whose payload lacks source_metadata_json
defaults to the empty JSON object, parses to all-default metadata, and
returns score 0.25 = 0.5 - 0.25 without failing. -/
theorem process_task_missing_key_defaults
    (parseJson : String → Except String SourceMetadata)
    (hparse : parseJson "\x7b\x7d" = .ok ⟨none, none, none, none⟩)
    (payload : ProfilerTaskPayload)
    (hmissing : payload.source_metadata_json = none) :
    SourceProfilerAgent.process_task parseJson payload
      = .ok { source_metadata := ⟨none, none, none, none⟩,
              source_credibility_score := 0.25 }
    ∧ calculate_source_score ⟨none, none, none, none⟩ = 0.5 - 0.25 := by
  have hscore : calculate_source_score ⟨none, none, none, none⟩ = 0.25 := by
    norm_num [calculate_source_score]
  constructor
  · unfold SourceProfilerAgent.process_task
    rw [hmissing]
    simp [hparse, hscore]
  · rw [hscore]
    norm_num

/-- Witness for claim C10 at a concrete parser and payload. -/
theorem process_task_missing_key_defaults_witness :
    SourceProfilerAgent.process_task
        (fun _ => .ok ⟨none, none, none, none⟩) { source_metadata_json := none }
      = .ok { source_metadata := ⟨none, none, none, none⟩,
              source_credibility_score := 0.25 }
    ∧ calculate_source_score ⟨none, none, none, none⟩ = 0.5 - 0.25 :=
  process_task_missing_key_defaults (fun _ => .ok ⟨none, none, none, none⟩) rfl
    { source_metadata_json := none } rfl

end Aegis
